import Mathlib

/-
A shallow embedding of the core pipeline of hgt2png.cpp: byte-order
normalization, elevation-range scanning, elevation rescaling, subdivision
validation, tile-offset planning, and the per-tile row-pointer setup.
Every definition below is translated from the corresponding lines of
src/hgt2png.cpp; definitions whose name starts with `spec` instead follow
the wording of the specification, for comparison against the code.
-/

namespace Hgt2Png

/-
Byte-Order Normalizer (hgt2png.cpp lines 200-209 and 258-267).
The loop walks the byte buffer two bytes at a time and swaps each
adjacent pair; it runs only when the host is little-endian. Bytes are
modelled as natural numbers; the loop body never inspects their values.
-/

def swapPairs : List Nat → List Nat
  | a :: b :: rest => b :: a :: swapPairs rest
  | l => l

def normalizeByteOrder (littleEndian : Bool) (buf : List Nat) : List Nat :=
  if littleEndian then swapPairs buf else buf

/-
Range Scanner (hgt2png.cpp lines 215-234).
State is (minimum, maximum, invalid), initialised to (32768, -32768, 0).
For each sample: if it is below the running minimum, either update the
minimum (non-sentinel) or count it as invalid (sentinel -32768); only
otherwise is the sample compared against the running maximum. The
`else if` of the source is kept exactly: a sample that takes the
minimum branch is never tested against the maximum.
-/

def scanStep (st : Int × Int × Int) (v : Int) : Int × Int × Int :=
  if v < st.1 then
    if v ≠ -32768 then (v, st.2.1, st.2.2) else (st.1, st.2.1, st.2.2 + 1)
  else if v > st.2.1 then (st.1, v, st.2.2)
  else st

def scanRange (grid : List Int) : Int × Int × Int :=
  grid.foldl scanStep (32768, -32768, 0)

/-
Elevation Rescaler (hgt2png.cpp lines 241-252).
The source computes, per sample,
  *uvalue = *svalue == -32768 ? 0xFFFF
          : static_cast<uint16_t>((toscale - minf) * 65534.0 / deltaf);
in IEEE double arithmetic. The model uses exact integer arithmetic,
justified as follows. Both operands of the subtraction are integers of
magnitude at most 32768, so the difference (magnitude at most 65535) and
the product by 65534.0 (magnitude below 2^32) are computed exactly in
double. The division is correctly rounded to nearest; when the exact
quotient k/d is not an integer its distance to the nearest integer is at
least 1/|d| ≥ 1/65535, while half an ulp of a double below 2^32 is at
most 2^-21, so rounding the quotient to nearest never crosses an
integer, and truncating the double quotient equals truncating the exact
rational quotient, which is Int.tdiv. The conversion double→uint16_t is
defined by C++ only when the truncated value lies in [0, 65535]; when
deltaf = 0 the quotient is NaN (0.0/0.0) and the conversion is
undefined. Both undefined cases are modelled as `none`.
-/

def rescaleSample (minimum maximum raw : Int) : Option Nat :=
  if raw = -32768 then some 65535
  else if maximum - minimum = 0 then none
  else if 0 ≤ ((raw - minimum) * 65534).tdiv (maximum - minimum) ∧
            ((raw - minimum) * 65534).tdiv (maximum - minimum) ≤ 65535 then
    some (((raw - minimum) * 65534).tdiv (maximum - minimum)).toNat
  else none

/-- The rescale formula as the specification words it: the non-sentinel
value is mapped to round((raw - minimum) * 65534 / (maximum - minimum)),
rounding to the nearest integer. Written only for comparison with
`rescaleSample`, which is translated from the code. -/
def specRescaleRound (minimum maximum raw : Int) : Int :=
  (2 * ((raw - minimum) * 65534) + (maximum - minimum)).tdiv
    (2 * (maximum - minimum))

/-
Tile Planner validation (hgt2png.cpp lines 133-147). The three checks
run in order; each failure prints a message naming the offending
dimension and divisor and exits. The error constructors carry exactly
the values the message names.
-/

inductive SubdivCheck where
  | ok : SubdivCheck
  | rowColTooSmall : SubdivCheck
  | widthNotDivisible : Int → Int → SubdivCheck
  | heightNotDivisible : Int → Int → SubdivCheck
deriving DecidableEq

def validateSubdivision (width height rows cols : Int) : SubdivCheck :=
  if cols < 1 ∨ rows < 1 then .rowColTooSmall
  else if cols > 1 ∧ (width - 1).tmod cols ≠ 0 then .widthNotDivisible width cols
  else if rows > 1 ∧ (height - 1).tmod rows ≠ 0 then .heightNotDivisible height rows
  else .ok

/-
Tile dimensions (hgt2png.cpp lines 148-149); C++ integer division
truncates, which is Int.tdiv.
-/

def subwidth (width cols : Int) : Int :=
  width.tdiv cols + (if cols > 1 then 1 else 0)

def subheight (height rows : Int) : Int :=
  height.tdiv rows + (if rows > 1 then 1 else 0)

/-
Tile offset loop (hgt2png.cpp lines 282-372). The outer loop runs
`rows` times, the inner loop `cols` times; each inner iteration emits
the current (row_offset, col_offset) pair and then executes
  col_offset += (subheight - 1);
and each outer iteration ends with
  col_offset = 0;
  row_offset += (subwidth - 1);
exactly as in the source (the column step uses subheight and the row
step uses subwidth there).
-/

def tileRow (count : Nat) (row_offset col_offset colStep : Int) :
    List (Int × Int) :=
  match count with
  | 0 => []
  | n + 1 =>
      (row_offset, col_offset) :: tileRow n row_offset (col_offset + colStep) colStep

def tileLoop (rowCount colCount : Nat) (row_offset colStep rowStep : Int) :
    List (Int × Int) :=
  match rowCount with
  | 0 => []
  | n + 1 =>
      tileRow colCount row_offset 0 colStep ++
        tileLoop n colCount (row_offset + rowStep) colStep rowStep

def tileOffsets (width height rows cols : Int) : List (Int × Int) :=
  tileLoop rows.toNat cols.toNat 0
    (subheight height rows - 1) (subwidth width cols - 1)

/-
The planner as run by main: validation happens before the tile loop, so
no tile is produced (and no output file is opened) when a check fails.
-/

inductive PlanResult where
  | failed : SubdivCheck → PlanResult
  | planned : List (Int × Int) → PlanResult
deriving DecidableEq

def planTiles (width height rows cols : Int) : PlanResult :=
  match validateSubdivision width height rows cols with
  | .ok => .planned (tileOffsets width height rows cols)
  | e => .failed e

/-
Raster Emitter row pointers (hgt2png.cpp lines 325-331). For the tile
at (row_offset, col_offset), the pointer for tile row r is
  raster.data() + (row_offset + r) * width * sizeof(uint16_t)
                + (col_offset - 1) * sizeof(uint16_t);
the model returns the byte offset of that pointer from raster.data().
-/

def rowPointerByteIndex (width row_offset col_offset r : Int) : Int :=
  (row_offset + r) * width * 2 + (col_offset - 1) * 2

/-- Byte offset of tile pixel (r, c): libpng reads the row buffer
sequentially, two bytes per 16-bit pixel, starting at the row pointer. -/
def codePixelByteIndex (width row_offset col_offset r c : Int) : Int :=
  rowPointerByteIndex width row_offset col_offset r + 2 * c

/-- The byte index the specification assigns to tile pixel (r, c): the
Grid sample at row row_offset + r and column col_offset + c, two bytes
per sample. Written only for comparison with `codePixelByteIndex`. -/
def specPixelByteIndex (width row_offset col_offset r c : Int) : Int :=
  ((row_offset + r) * width + (col_offset + c)) * 2

/-
Hemisphere validation (hgt2png.cpp lines 175-180). The characters come
from sscanf on the file name; when the name does not parse they keep
their zero initialisers. Characters are modelled by their ASCII codes:
78 = N, 83 = S, 87 = W, 69 = E. On an invalid pair main prints a
diagnostic and returns 1.
-/

inductive MainStep where
  | proceed : MainStep
  | exitCode : Nat → MainStep
deriving DecidableEq

def hemisphereCheck (hemi0 hemi1 : Nat) : MainStep :=
  if (hemi0 = 78 ∨ hemi0 = 83) ∧ (hemi1 = 87 ∨ hemi1 = 69) then .proceed
  else .exitCode 1

/-
Helper lemmas about the rescale arithmetic, shared by the theorems on
the Elevation Rescaler.
-/

theorem swapPairs_swapPairs : ∀ l : List Nat, swapPairs (swapPairs l) = l
  | [] => rfl
  | [_] => rfl
  | a :: b :: rest => by
      simp only [swapPairs]
      rw [swapPairs_swapPairs rest]

theorem rescaleSample_eq_tdiv (mn mx raw : Int) (hlt : mn < mx)
    (hlo : mn ≤ raw) (hhi : raw ≤ mx) (hs : raw ≠ -32768) :
    rescaleSample mn mx raw = some (((raw - mn) * 65534).tdiv (mx - mn)).toNat ∧
      (((raw - mn) * 65534).tdiv (mx - mn)).toNat ≤ 65534 := by
  have hd : (0 : Int) < mx - mn := by omega
  have hk : (0 : Int) ≤ (raw - mn) * 65534 := by nlinarith
  have hq0 : 0 ≤ ((raw - mn) * 65534).tdiv (mx - mn) :=
    Int.tdiv_nonneg hk (le_of_lt hd)
  have hq65534 : ((raw - mn) * 65534).tdiv (mx - mn) ≤ 65534 := by
    rw [Int.tdiv_eq_ediv hk (le_of_lt hd)]
    calc (raw - mn) * 65534 / (mx - mn)
        ≤ 65534 * (mx - mn) / (mx - mn) := Int.ediv_le_ediv hd (by nlinarith)
      _ = 65534 := Int.mul_ediv_cancel 65534 (ne_of_gt hd)
  refine ⟨?_, Int.toNat_le.mpr hq65534⟩
  unfold rescaleSample
  rw [if_neg hs, if_neg (by omega : ¬(mx - mn = 0)),
    if_pos ⟨hq0, le_trans hq65534 (by norm_num)⟩]

theorem rescale_tdiv_mono (mn mx r1 r2 : Int) (hd : 0 < mx - mn)
    (hlo : mn ≤ r1) (h12 : r1 ≤ r2) :
    ((r1 - mn) * 65534).tdiv (mx - mn) ≤ ((r2 - mn) * 65534).tdiv (mx - mn) := by
  have hk1 : (0 : Int) ≤ (r1 - mn) * 65534 := by nlinarith
  have hk2 : (0 : Int) ≤ (r2 - mn) * 65534 := by nlinarith
  rw [Int.tdiv_eq_ediv hk1 (le_of_lt hd), Int.tdiv_eq_ediv hk2 (le_of_lt hd)]
  exact Int.ediv_le_ediv hd (by nlinarith)

/-
Theorems settling the claims.
-/

/-- Claim C1: the claim states that on a flat grid (all non-sentinel
samples equal, so the discovered maximum equals the discovered minimum
and delta = 0) every non-sentinel sample is rescaled to 0. The code has
no special case for delta = 0: on the grid [100, 100] the scanner yields
minimum = maximum = 100, and the rescale expression divides 0.0 by 0.0,
casting the resulting NaN to uint16_t, which C++ leaves undefined
(modelled as `none`), not 0. -/
theorem c1_flat_grid_rescale_undefined :
    scanRange [100, 100] = (100, 100, 0) ∧
      rescaleSample 100 100 100 = none ∧
      rescaleSample 100 100 100 ≠ some 0 := by decide

/-- Claim C2: the claim states that consecutive column offsets differ by
subwidth - 1 and consecutive row offsets by subheight - 1. In the code
the two steps are swapped: col_offset advances by subheight - 1 and
row_offset by subwidth - 1. For width = 5, height = 9, rows = cols = 2
(which passes validation, with subwidth = 3 and subheight = 5) the code
emits offsets [(0,0), (0,4), (2,0), (2,4)] instead of the claimed
[(0,0), (0,2), (4,0), (4,2)]. -/
theorem c2_tile_offset_steps_swapped :
    validateSubdivision 5 9 2 2 = .ok ∧
      subwidth 5 2 = 3 ∧ subheight 9 2 = 5 ∧
      tileOffsets 5 9 2 2 = [(0, 0), (0, 4), (2, 0), (2, 4)] ∧
      tileOffsets 5 9 2 2 ≠ [(0, 0), (0, 2), (4, 0), (4, 2)] := by decide

/-- Claim C3: the claim states that tile pixel (r, c) of the tile at
(row_offset, col_offset) refers to the Grid sample at row row_offset + r
and column col_offset + c. The code builds each row pointer with a
horizontal byte offset of (col_offset - 1) * 2, one sample to the left
of the claimed position: for the single tile of a 2 x 2 grid
(rows = cols = 1, offsets (0,0)), pixel (0, 0) is read from byte
index -2 while the claim places it at byte index 0. -/
theorem c3_row_pointer_off_by_one :
    tileOffsets 2 2 1 1 = [(0, 0)] ∧
      codePixelByteIndex 2 0 0 0 0 = -2 ∧
      specPixelByteIndex 2 0 0 0 0 = 0 ∧
      codePixelByteIndex 2 0 0 0 0 ≠ specPixelByteIndex 2 0 0 0 0 := by decide

/-- Claim C4: the claim states that after the scan, maximum >= minimum
holds for any grid with at least one non-sentinel sample. Because a
sample that updates the running minimum is never compared against the
maximum, the grid [5] (one non-sentinel sample) ends the scan with
minimum = 5 and maximum = -32768, so maximum < minimum. -/
theorem c4_scan_max_lt_min_on_single_sample :
    scanRange [5] = (5, -32768, 0) ∧
      (scanRange [5]).2.1 < (scanRange [5]).1 := by decide

/-- Claim C5 (counterexample): the claim states that a non-sentinel
sample is rescaled to round((raw - minimum) * 65534 / delta). The cast
in the code truncates instead of rounding: on the grid [0, 3, 1] the
scanner yields minimum 0 and maximum 3, and sample 1 is rescaled to
trunc(65534 / 3) = 21844, while rounding to nearest gives 21845. -/
theorem c5_rescale_rounds_counterexample :
    scanRange [0, 3, 1] = (0, 3, 0) ∧
      rescaleSample 0 3 1 = some 21844 ∧
      specRescaleRound 0 3 1 = 21845 ∧
      rescaleSample 0 3 1 ≠ some (specRescaleRound 0 3 1).toNat := by decide

/-- Claim C5 (amended): every sentinel sample is rescaled to 0xFFFF
unconditionally; and for a discovered range with maximum - minimum > 0,
every non-sentinel sample lying between minimum and maximum is rescaled
to the truncation (not the rounding) of (raw - minimum) * 65534 / delta,
a value in [0, 65534], so it never rescales to 0xFFFF. -/
theorem c5_amended_truncating_rescale (mn mx raw : Int) (hlt : mn < mx)
    (hlo : mn ≤ raw) (hhi : raw ≤ mx) (hs : raw ≠ -32768) :
    rescaleSample mn mx (-32768) = some 65535 ∧
      rescaleSample mn mx raw = some (((raw - mn) * 65534).tdiv (mx - mn)).toNat ∧
      (((raw - mn) * 65534).tdiv (mx - mn)).toNat ≤ 65534 ∧
      rescaleSample mn mx raw ≠ some 65535 := by
  obtain ⟨heq, hb⟩ := rescaleSample_eq_tdiv mn mx raw hlt hlo hhi hs
  refine ⟨by unfold rescaleSample; rw [if_pos rfl], heq, hb, ?_⟩
  rw [heq]
  intro hcon
  have h65 := Option.some_inj.mp hcon
  omega

/-- Claim C5 (witness): the amended statement instantiated on the range
[0, 3] at sample 1. -/
theorem c5_amended_truncating_rescale_witness :
    rescaleSample 0 3 (-32768) = some 65535 ∧
      rescaleSample 0 3 1 = some ((((1 : Int) - 0) * 65534).tdiv (3 - 0)).toNat ∧
      ((((1 : Int) - 0) * 65534).tdiv (3 - 0)).toNat ≤ 65534 ∧
      rescaleSample 0 3 1 ≠ some 65535 :=
  c5_amended_truncating_rescale 0 3 1 (by decide) (by decide) (by decide) (by decide)

/-- Claim C6: normalizing byte order twice, for any host byte order and
any buffer of even length, yields the original buffer. -/
theorem c6_byte_order_roundtrip (littleEndian : Bool) (buf : List Nat)
    (_h : buf.length % 2 = 0) :
    normalizeByteOrder littleEndian (normalizeByteOrder littleEndian buf) = buf := by
  unfold normalizeByteOrder
  cases littleEndian with
  | false => simp
  | true => simp [swapPairs_swapPairs buf]

/-- Claim C6 (witness): the round trip on the concrete little-endian
buffer [1, 2, 3, 4]. -/
theorem c6_byte_order_roundtrip_witness :
    [1, 2, 3, 4].length % 2 = 0 ∧
      normalizeByteOrder true (normalizeByteOrder true [1, 2, 3, 4]) = [1, 2, 3, 4] :=
  ⟨by decide, c6_byte_order_roundtrip true [1, 2, 3, 4] (by decide)⟩

/-- Claim C7: the subdivision validation rejects rows < 1 or cols < 1,
rejects cols > 1 with (width - 1) % cols nonzero naming the width and
cols, rejects rows > 1 with (height - 1) % rows nonzero naming the
height and rows, and in particular width = 5 with cols = 3 fails naming
width 5 and divisor 3 before any tile is planned. -/
theorem c7_subdivision_validation (width height rows cols : Int) :
    ((rows < 1 ∨ cols < 1) →
      validateSubdivision width height rows cols = .rowColTooSmall) ∧
    (1 ≤ rows → 1 ≤ cols → cols > 1 → (width - 1).tmod cols ≠ 0 →
      validateSubdivision width height rows cols = .widthNotDivisible width cols) ∧
    (1 ≤ rows → 1 ≤ cols → ¬(cols > 1 ∧ (width - 1).tmod cols ≠ 0) →
      rows > 1 → (height - 1).tmod rows ≠ 0 →
      validateSubdivision width height rows cols = .heightNotDivisible height rows) ∧
    planTiles 5 height 1 3 = .failed (.widthNotDivisible 5 3) := by
  have hv : validateSubdivision 5 height 1 3 = .widthNotDivisible 5 3 := by
    unfold validateSubdivision
    rw [if_neg (by decide), if_pos (by decide)]
  refine ⟨?_, ?_, ?_, ?_⟩
  · intro h
    unfold validateSubdivision
    rw [if_pos (by omega)]
  · intro _ _ hc hw
    unfold validateSubdivision
    rw [if_neg (by omega), if_pos ⟨hc, hw⟩]
  · intro _ _ hnc hr hh
    unfold validateSubdivision
    rw [if_neg (by omega), if_neg hnc, if_pos ⟨hr, hh⟩]
  · unfold planTiles
    rw [hv]

/-- Claim C7 (witness): validation outcomes at the concrete inputs
(width 5, height 9, rows 1, cols 3) and (width 9, height 9, rows 0,
cols 2). -/
theorem c7_subdivision_validation_witness :
    validateSubdivision 5 9 1 3 = .widthNotDivisible 5 3 ∧
      validateSubdivision 9 9 0 2 = .rowColTooSmall :=
  ⟨(c7_subdivision_validation 5 9 1 3).2.1 (by decide) (by decide) (by decide)
      (by decide),
    (c7_subdivision_validation 9 9 0 2).1 (Or.inl (by decide))⟩

/-- Claim C8 (counterexample): the claim states that the rescale mapping
is non-decreasing over all raw sample values. The sentinel -32768 maps
to 65535 while every in-range non-sentinel sample maps to at most 65534:
with range [0, 1], raw1 = -32768 <= raw2 = 0 but the images are 65535
and 0. -/
theorem c8_sentinel_breaks_monotonicity :
    rescaleSample 0 1 (-32768) = some 65535 ∧
      rescaleSample 0 1 0 = some 0 ∧
      (-32768 : Int) ≤ 0 ∧ ¬(65535 ≤ 0) := by decide

/-- Claim C8 (amended): for a fixed non-degenerate range discovered from
non-sentinel samples (so minimum > -32768 and minimum < maximum), the
rescale mapping is non-decreasing on non-sentinel samples within the
range. -/
theorem c8_amended_monotone (mn mx r1 r2 : Int) (hlt : mn < mx)
    (hmn : -32768 < mn) (ha : mn ≤ r1) (h12 : r1 ≤ r2) (hc : r2 ≤ mx) :
    ∃ q1 q2 : Nat, rescaleSample mn mx r1 = some q1 ∧
      rescaleSample mn mx r2 = some q2 ∧ q1 ≤ q2 := by
  have hs1 : r1 ≠ -32768 := by omega
  have hs2 : r2 ≠ -32768 := by omega
  obtain ⟨he1, _⟩ := rescaleSample_eq_tdiv mn mx r1 hlt ha (le_trans h12 hc) hs1
  obtain ⟨he2, _⟩ := rescaleSample_eq_tdiv mn mx r2 hlt (le_trans ha h12) hc hs2
  exact ⟨_, _, he1, he2,
    Int.toNat_le_toNat (rescale_tdiv_mono mn mx r1 r2 (by omega) ha h12)⟩

/-- Claim C8 (witness): monotonicity instantiated on the range [0, 2] at
samples 0 and 1. -/
theorem c8_amended_monotone_witness :
    ∃ q1 q2 : Nat, rescaleSample 0 2 0 = some q1 ∧
      rescaleSample 0 2 1 = some q2 ∧ q1 ≤ q2 :=
  c8_amended_monotone 0 2 0 1 (by decide) (by decide) (by decide) (by decide)
    (by decide)

/-- Claim C9 (counterexample): the claim states that unparseable or
missing geographic metadata is non-fatal, with processing continuing on
a placeholder. When the file name does not parse, the hemisphere
characters keep their zero initialisers and the check returns exit
code 1 — the run terminates instead of proceeding. -/
theorem c9_format_error_counterexample :
    hemisphereCheck 0 0 = MainStep.exitCode 1 ∧
      hemisphereCheck 0 0 ≠ MainStep.proceed := by decide

/-- Claim C9 (amended): whenever the parsed hemisphere pair is invalid
(the first character is not N or S, or the second is not W or E), the
program terminates with exit status 1. -/
theorem c9_amended_fatal_format_error (hemi0 hemi1 : Nat)
    (hinv : ¬((hemi0 = 78 ∨ hemi0 = 83) ∧ (hemi1 = 87 ∨ hemi1 = 69))) :
    hemisphereCheck hemi0 hemi1 = MainStep.exitCode 1 := by
  unfold hemisphereCheck
  rw [if_neg hinv]

/-- Claim C9 (witness): the fatal exit on the all-zero (unparsed)
hemisphere characters. -/
theorem c9_amended_fatal_format_error_witness :
    hemisphereCheck 0 0 = MainStep.exitCode 1 :=
  c9_amended_fatal_format_error 0 0 (by decide)

/-- Claim C10: the claim states that every row pointer of every planned
tile stays within the allocated buffer. For the single tile of a 2 x 2
grid (rows = cols = 1, tile offset (0, 0)) the first row pointer is
built at byte index -2, two bytes before the start of the buffer. -/
theorem c10_first_tile_row_pointer_underflow :
    tileOffsets 2 2 1 1 = [(0, 0)] ∧
      rowPointerByteIndex 2 0 0 0 = -2 ∧
      rowPointerByteIndex 2 0 0 0 < 0 := by decide

end Hgt2Png
